import Mathlib

/-!
Verification of the gcoord coordinate-conversion library.

A shallow embedding of `src/lib.rs`: conversions between the WGS84, GCJ02
and BD09 geodetic datums.

Modelling of `f64`:

* A double value is modelled by `Fl`: either an exact rational (`Fl.fin q`)
  or `Fl.nan`. Arithmetic is exact rational arithmetic with NaN
  propagation; IEEE-754 rounding and the infinities are not modelled
  (division of a finite value by zero yields `Fl.fin 0` here where f64
  would give an infinity). Comparisons follow IEEE-754: any comparison
  with a NaN operand is false.
* The transcendental primitives the source calls (`sin`, `cos`, `sqrt`,
  `atan2`) and the constant `std::f64::consts::PI` have no exact rational
  counterpart, so they are kept as uninterpreted parameters, bundled in a
  `TrigOps` record. Theorems quantify over all instantiations; a concrete
  instantiation `T0` (everything zero) is used to witness hypotheses on
  concrete inputs.
* The `loop` in `gcj02_to_wgs84` has no iteration cap in the source, so it
  is modelled with explicit fuel: `none` means the fuel ran out before the
  loop finished; `some r` means the source loop returns `r` (within that
  many iterations, hence for every larger fuel as well).
-/

/-- A model of an `f64` value: an exact rational, or NaN.
(Rounding and infinities are outside the model.) -/
inductive Fl where
  | nan : Fl
  | fin : ℚ → Fl
deriving DecidableEq

/-- Lift a binary rational operation to `Fl`, propagating NaN. -/
def Fl.lift2 (f : ℚ → ℚ → ℚ) : Fl → Fl → Fl
  | .fin x, .fin y => .fin (f x y)
  | _, _ => .nan

instance : Add Fl := ⟨Fl.lift2 (· + ·)⟩

instance : Sub Fl := ⟨Fl.lift2 (· - ·)⟩

instance : Mul Fl := ⟨Fl.lift2 (· * ·)⟩

instance : Div Fl := ⟨Fl.lift2 (· / ·)⟩

instance : Neg Fl := ⟨fun a => match a with | .fin x => .fin (-x) | .nan => .nan⟩

/-- Decimal literals denote their exact rational value. -/
instance : OfScientific Fl := ⟨fun m e d => .fin (OfScientific.ofScientific m e d)⟩

instance (n : ℕ) : OfNat Fl n := ⟨.fin (OfNat.ofNat n)⟩

/-- `f64::abs`. -/
def Fl.abs : Fl → Fl
  | .fin x => .fin |x|
  | .nan => .nan

/-- The `<=` comparison of `f64`: false whenever an operand is NaN. -/
def Fl.ble : Fl → Fl → Bool
  | .fin x, .fin y => decide (x ≤ y)
  | _, _ => false

/-- The `<` comparison of `f64`: false whenever an operand is NaN. -/
def Fl.blt : Fl → Fl → Bool
  | .fin x, .fin y => decide (x < y)
  | _, _ => false

/-! Computation rules for the `Fl` layer, so that the model evaluates on
concrete inputs (the kernel does not reduce `ℚ` arithmetic, so evaluation
goes through `simp`/`norm_num` with these rewrites). -/

@[simp] theorem fin_add (x y : ℚ) : Fl.fin x + Fl.fin y = Fl.fin (x + y) := rfl

@[simp] theorem fin_sub (x y : ℚ) : Fl.fin x - Fl.fin y = Fl.fin (x - y) := rfl

@[simp] theorem fin_mul (x y : ℚ) : Fl.fin x * Fl.fin y = Fl.fin (x * y) := rfl

@[simp] theorem fin_div (x y : ℚ) : Fl.fin x / Fl.fin y = Fl.fin (x / y) := rfl

@[simp] theorem fin_neg (x : ℚ) : -Fl.fin x = Fl.fin (-x) := rfl

@[simp] theorem fin_abs (x : ℚ) : Fl.abs (Fl.fin x) = Fl.fin |x| := rfl

@[simp] theorem fin_ble (x y : ℚ) : Fl.ble (Fl.fin x) (Fl.fin y) = decide (x ≤ y) := rfl

@[simp] theorem fin_blt (x y : ℚ) : Fl.blt (Fl.fin x) (Fl.fin y) = decide (x < y) := rfl

@[simp] theorem ble_nan_left (b : Fl) : Fl.ble .nan b = false := rfl

@[simp] theorem ble_nan_right (a : Fl) : Fl.ble a .nan = false := by cases a <;> rfl

@[simp] theorem fl_ofScientific (m : ℕ) (e : Bool) (d : ℕ) :
    (OfScientific.ofScientific m e d : Fl) = Fl.fin (OfScientific.ofScientific m e d) := rfl

@[simp] theorem fl_ofNat (n : ℕ) [n.AtLeastTwo] :
    (OfNat.ofNat n : Fl) = Fl.fin (OfNat.ofNat n) := rfl

/-- The transcendental `f64` primitives used by the source, together with
the value of `std::f64::consts::PI`, kept uninterpreted. -/
structure TrigOps where
  sin : Fl → Fl
  cos : Fl → Fl
  sqrt : Fl → Fl
  atan2 : Fl → Fl → Fl
  pi : Fl

/-- A concrete (arbitrary) instantiation of the transcendental primitives,
used to evaluate the model on concrete inputs. -/
def T0 : TrigOps := ⟨fun _ => .fin 0, fun _ => .fin 0, fun _ => .fin 0, fun _ _ => .fin 0, .fin 0⟩

/-- Rust `enum CoordSystem`. -/
inductive CoordSystem where
  | WGS84
  | GCJ02
  | BD09
deriving DecidableEq

/-- Rust `struct Coordinate`, with `lng` and `lat` fields of type `f64`. -/
structure Coordinate where
  lng : Fl
  lat : Fl
deriving DecidableEq

/-- Rust `Coordinate::new`. -/
def Coordinate.new (lng lat : Fl) : Coordinate := ⟨lng, lat⟩

/-- Rust `enum ConvertError`. -/
inductive ConvertError where
  | UnsupportedConversion
  | OutOfChina
deriving DecidableEq

namespace gcj02_bd09

/-- Rust `const BAIDU_FACTOR: f64 = std::f64::consts::PI * 3000.0 / 180.0;`. -/
def BAIDU_FACTOR (T : TrigOps) : Fl := T.pi * 3000.0 / 180.0

/-- Rust `pub fn bd09_to_gcj02(coord: Coordinate) -> Coordinate`. -/
def bd09_to_gcj02 (T : TrigOps) (coord : Coordinate) : Coordinate :=
  let x := coord.lng - 0.0065
  let y := coord.lat - 0.006
  let z := T.sqrt (x * x + y * y) - 0.00002 * T.sin (y * BAIDU_FACTOR T)
  let theta := T.atan2 y x - 0.000003 * T.cos (x * BAIDU_FACTOR T)
  let lng := z * T.cos theta
  let lat := z * T.sin theta
  Coordinate.new lng lat

/-- Rust `pub fn gcj02_to_bd09(coord: Coordinate) -> Coordinate`. -/
def gcj02_to_bd09 (T : TrigOps) (coord : Coordinate) : Coordinate :=
  let x := coord.lng
  let y := coord.lat
  let z := T.sqrt (x * x + y * y) + 0.00002 * T.sin (y * BAIDU_FACTOR T)
  let theta := T.atan2 y x + 0.000003 * T.cos (x * BAIDU_FACTOR T)
  let lng := z * T.cos theta + 0.0065
  let lat := z * T.sin theta + 0.006
  Coordinate.new lng lat

end gcj02_bd09

namespace gcj02_wgs84

/-- Rust `const A: f64 = 6378245.0;` (Krasovsky 1940 semi-major axis). -/
def A : Fl := 6378245.0

/-- Rust `const EE: f64 = 0.006693421622965823;` (eccentricity squared). -/
def EE : Fl := 0.006693421622965823

/-- Rust `fn is_in_china_bbox(lon: f64, lat: f64) -> bool`. -/
def is_in_china_bbox (lon lat : Fl) : Bool :=
  Fl.ble 72.004 lon && Fl.ble lon 137.8347 && Fl.ble 0.8293 lat && Fl.ble lat 55.8271

/-- Rust `fn transform_lat(x: f64, y: f64) -> f64`. -/
def transform_lat (T : TrigOps) (x y : Fl) : Fl :=
  let ret := -100.0 + 2.0 * x + 3.0 * y + 0.2 * y * y + 0.1 * x * y + 0.2 * T.sqrt (Fl.abs x)
  let ret := ret + ((20.0 * T.sin (6.0 * x * T.pi) + 20.0 * T.sin (2.0 * x * T.pi)) * 2.0) / 3.0
  let ret := ret + ((20.0 * T.sin (y * T.pi) + 40.0 * T.sin (y / 3.0 * T.pi)) * 2.0) / 3.0
  let ret := ret + ((160.0 * T.sin (y / 12.0 * T.pi) + 320.0 * T.sin (y * T.pi / 30.0)) * 2.0) / 3.0
  ret

/-- Rust `fn transform_lon(x: f64, y: f64) -> f64`. -/
def transform_lon (T : TrigOps) (x y : Fl) : Fl :=
  let ret := 300.0 + x + 2.0 * y + 0.1 * x * x + 0.1 * x * y + 0.1 * T.sqrt (Fl.abs x)
  let ret := ret + ((20.0 * T.sin (6.0 * x * T.pi) + 20.0 * T.sin (2.0 * x * T.pi)) * 2.0) / 3.0
  let ret := ret + ((20.0 * T.sin (x * T.pi) + 40.0 * T.sin (x / 3.0 * T.pi)) * 2.0) / 3.0
  let ret := ret + ((150.0 * T.sin (x / 12.0 * T.pi) + 300.0 * T.sin (x / 30.0 * T.pi)) * 2.0) / 3.0
  ret

/-- Rust `fn delta(lon: f64, lat: f64) -> (f64, f64)`. -/
def delta (T : TrigOps) (lon lat : Fl) : Fl × Fl :=
  let d_lon := transform_lon T (lon - 105.0) (lat - 35.0)
  let d_lat := transform_lat T (lon - 105.0) (lat - 35.0)
  let rad_lat := lat / 180.0 * T.pi
  let magic := T.sin rad_lat
  let magic := 1.0 - EE * magic * magic
  let sqrt_magic := T.sqrt magic
  let d_lon := (d_lon * 180.0) / ((A / sqrt_magic) * T.cos rad_lat * T.pi)
  let d_lat := (d_lat * 180.0) / (((A * (1.0 - EE)) / (magic * sqrt_magic)) * T.pi)
  (d_lon, d_lat)

/-- Rust `pub fn wgs84_to_gcj02(coord: Coordinate) -> Result<Coordinate, ConvertError>`. -/
def wgs84_to_gcj02 (T : TrigOps) (coord : Coordinate) : Except ConvertError Coordinate :=
  let lon := coord.lng
  let lat := coord.lat
  if !is_in_china_bbox lon lat then .error .OutOfChina
  else
    let d := delta T lon lat
    .ok (Coordinate.new (lon + d.1) (lat + d.2))

/-- The `loop` body of `gcj02_to_wgs84`, with explicit fuel. `lon`/`lat`
are the GCJ02 target, the last two arguments are the mutable candidates
`wgs_lon`/`wgs_lat`; `none` means the fuel was exhausted before the loop
finished. -/
def gcj02_loop (T : TrigOps) (lon lat : Fl) :
    ℕ → Fl → Fl → Option (Except ConvertError Coordinate)
  | 0, _, _ => none
  | fuel + 1, wgs_lon, wgs_lat =>
    match wgs84_to_gcj02 T (Coordinate.new wgs_lon wgs_lat) with
    | .error e => some (.error e)
    | .ok temp_point =>
      let dx := temp_point.lng - lon
      let dy := temp_point.lat - lat
      if Fl.blt (Fl.abs dx) 1e-6 && Fl.blt (Fl.abs dy) 1e-6
      then some (.ok (Coordinate.new wgs_lon wgs_lat))
      else gcj02_loop T lon lat fuel (wgs_lon - dx) (wgs_lat - dy)

/-- Rust `pub fn gcj02_to_wgs84(coord: Coordinate) -> Result<Coordinate, ConvertError>`,
with explicit fuel for the convergence loop. -/
def gcj02_to_wgs84 (T : TrigOps) (fuel : ℕ) (coord : Coordinate) :
    Option (Except ConvertError Coordinate) :=
  let lon := coord.lng
  let lat := coord.lat
  if !is_in_china_bbox lon lat then some (.error .OutOfChina)
  else gcj02_loop T lon lat fuel lon lat

end gcj02_wgs84

/-- Rust `pub fn transform(coord, from, to) -> Result<Coordinate, ConvertError>`.
The `(BD09, WGS84)` arm of the source is `Ok(gcj02_to_wgs84(bd09_to_gcj02(coord)))?`,
whose `?` unwraps the outer `Ok` again, so that arm is just the inner call.
The fuel feeds the convergence loop of `gcj02_to_wgs84` (the only partial
piece); every other arm is total and ignores it. -/
def transform (T : TrigOps) (fuel : ℕ) (coord : Coordinate) (src tgt : CoordSystem) :
    Option (Except ConvertError Coordinate) :=
  match src, tgt with
  | .WGS84, .GCJ02 => some (gcj02_wgs84.wgs84_to_gcj02 T coord)
  | .GCJ02, .WGS84 => gcj02_wgs84.gcj02_to_wgs84 T fuel coord
  | .GCJ02, .BD09 => some (.ok (gcj02_bd09.gcj02_to_bd09 T coord))
  | .BD09, .GCJ02 => some (.ok (gcj02_bd09.bd09_to_gcj02 T coord))
  | .WGS84, .BD09 =>
    some (match gcj02_wgs84.wgs84_to_gcj02 T coord with
      | .ok q => .ok (gcj02_bd09.gcj02_to_bd09 T q)
      | .error e => .error e)
  | .BD09, .WGS84 => gcj02_wgs84.gcj02_to_wgs84 T fuel (gcj02_bd09.bd09_to_gcj02 T coord)
  | _, _ => some (.ok coord)

/-! ## Helper lemmas -/

/-- The bounding-box gate fails on a finite coordinate outside the box. -/
theorem bbox_false_of_outside (x y : ℚ)
    (h : x < 72.004 ∨ 137.8347 < x ∨ y < 0.8293 ∨ 55.8271 < y) :
    gcj02_wgs84.is_in_china_bbox (.fin x) (.fin y) = false := by
  rcases h with h | h | h | h <;>
    simp [gcj02_wgs84.is_in_china_bbox, not_le.mpr h]

/-- The bounding-box gate passes on a finite coordinate inside the box. -/
theorem bbox_true_of_inside (x y : ℚ)
    (h : 72.004 ≤ x ∧ x ≤ 137.8347 ∧ 0.8293 ≤ y ∧ y ≤ 55.8271) :
    gcj02_wgs84.is_in_china_bbox (.fin x) (.fin y) = true := by
  simp [gcj02_wgs84.is_in_china_bbox, h.1, h.2.1, h.2.2.1, h.2.2.2]

/-- An error produced by the forward transform is always `OutOfChina`. -/
theorem wgs84_to_gcj02_error_eq (T : TrigOps) (c : Coordinate) (e : ConvertError)
    (h : gcj02_wgs84.wgs84_to_gcj02 T c = .error e) : e = .OutOfChina := by
  simp only [gcj02_wgs84.wgs84_to_gcj02] at h
  split at h <;> simp_all

/-- The forward transform returns `Ok` with the delta applied whenever the
bounding-box gate passes. -/
theorem wgs84_to_gcj02_ok_of_inside (T : TrigOps) (c : Coordinate)
    (hb : gcj02_wgs84.is_in_china_bbox c.lng c.lat = true) :
    gcj02_wgs84.wgs84_to_gcj02 T c =
      .ok (Coordinate.new (c.lng + (gcj02_wgs84.delta T c.lng c.lat).1)
        (c.lat + (gcj02_wgs84.delta T c.lng c.lat).2)) := by
  simp [gcj02_wgs84.wgs84_to_gcj02, hb]

/-- The forward transform never reports `UnsupportedConversion`. -/
theorem wgs84_to_gcj02_not_unsupported (T : TrigOps) (c : Coordinate) :
    gcj02_wgs84.wgs84_to_gcj02 T c ≠ .error .UnsupportedConversion := by
  intro h
  exact ConvertError.noConfusion (wgs84_to_gcj02_error_eq T c _ h)

/-- The convergence loop never reports `UnsupportedConversion`. -/
theorem gcj02_loop_not_unsupported (T : TrigOps) (lon lat : Fl) :
    ∀ (fuel : ℕ) (wlon wlat : Fl),
      gcj02_wgs84.gcj02_loop T lon lat fuel wlon wlat ≠
        some (.error .UnsupportedConversion) := by
  intro fuel
  induction fuel with
  | zero => intro wlon wlat; simp [gcj02_wgs84.gcj02_loop]
  | succ n ih =>
    intro wlon wlat h
    rw [gcj02_wgs84.gcj02_loop] at h
    cases he : gcj02_wgs84.wgs84_to_gcj02 T (Coordinate.new wlon wlat) with
    | error e =>
      rw [he] at h
      have := wgs84_to_gcj02_error_eq T (Coordinate.new wlon wlat) e he
      simp_all
    | ok t =>
      rw [he] at h
      simp only at h
      split at h
      · simp_all
      · exact ih _ _ h

/-- The inverse transform never reports `UnsupportedConversion`. -/
theorem gcj02_to_wgs84_not_unsupported (T : TrigOps) (fuel : ℕ) (c : Coordinate) :
    gcj02_wgs84.gcj02_to_wgs84 T fuel c ≠ some (.error .UnsupportedConversion) := by
  intro h
  simp only [gcj02_wgs84.gcj02_to_wgs84] at h
  split at h
  · simp_all
  · exact gcj02_loop_not_unsupported T _ _ fuel _ _ h

/-- The convergence loop only stops at a candidate whose forward image is
within `1e-6` of the target in both components. -/
theorem gcj02_loop_ok_residual (T : TrigOps) (lon lat : Fl) :
    ∀ (fuel : ℕ) (wlon wlat : Fl) (w : Coordinate),
      gcj02_wgs84.gcj02_loop T lon lat fuel wlon wlat = some (.ok w) →
      ∃ q, gcj02_wgs84.wgs84_to_gcj02 T w = .ok q ∧
        Fl.blt (Fl.abs (q.lng - lon)) 1e-6 = true ∧
        Fl.blt (Fl.abs (q.lat - lat)) 1e-6 = true := by
  intro fuel
  induction fuel with
  | zero => intro wlon wlat w h; simp [gcj02_wgs84.gcj02_loop] at h
  | succ n ih =>
    intro wlon wlat w h
    rw [gcj02_wgs84.gcj02_loop] at h
    cases he : gcj02_wgs84.wgs84_to_gcj02 T (Coordinate.new wlon wlat) with
    | error e => rw [he] at h; simp_all
    | ok t =>
      rw [he] at h
      simp only at h
      split at h
      next hcond =>
        rw [Option.some.injEq, Except.ok.injEq] at h
        subst h
        rw [Bool.and_eq_true] at hcond
        exact ⟨t, he, hcond.1, hcond.2⟩
      next => exact ih _ _ _ h

/-! ## The claims -/

/-- C1: for every coordinate `p` (whatever its component values, NaN
included) and every system `S`, `transform(p, S, S)` returns `Ok(p)`
unchanged, with no validation performed (true for every instantiation of
the transcendental primitives and any fuel, the loop being unreachable). -/
theorem transform_same_system_identity (T : TrigOps) (fuel : ℕ) (p : Coordinate)
    (S : CoordSystem) : transform T fuel p S S = some (.ok p) := by
  cases S <;> rfl

/-- C2: a finite coordinate outside the China box yields `OutOfChina` on
the WGS84→GCJ02, GCJ02→WGS84 and WGS84→BD09 paths (at every fuel, i.e.
before the convergence loop runs at all); conversely a coordinate inside
the box makes WGS84→GCJ02 return `Ok`. -/
theorem transform_out_of_china_gating (T : TrigOps) (fuel : ℕ) (x y : ℚ) :
    ((x < 72.004 ∨ 137.8347 < x ∨ y < 0.8293 ∨ 55.8271 < y) →
      transform T fuel ⟨.fin x, .fin y⟩ .WGS84 .GCJ02 = some (.error .OutOfChina) ∧
      transform T fuel ⟨.fin x, .fin y⟩ .GCJ02 .WGS84 = some (.error .OutOfChina) ∧
      transform T fuel ⟨.fin x, .fin y⟩ .WGS84 .BD09 = some (.error .OutOfChina)) ∧
    ((72.004 ≤ x ∧ x ≤ 137.8347 ∧ 0.8293 ≤ y ∧ y ≤ 55.8271) →
      ∃ q, transform T fuel ⟨.fin x, .fin y⟩ .WGS84 .GCJ02 = some (.ok q)) := by
  constructor
  · intro h
    have hb := bbox_false_of_outside x y h
    refine ⟨?_, ?_, ?_⟩ <;>
      simp [transform, gcj02_wgs84.wgs84_to_gcj02, gcj02_wgs84.gcj02_to_wgs84, hb]
  · intro h
    have hb := bbox_true_of_inside x y h
    refine ⟨Coordinate.new (Fl.fin x + (gcj02_wgs84.delta T (.fin x) (.fin y)).1)
      (Fl.fin y + (gcj02_wgs84.delta T (.fin x) (.fin y)).2), ?_⟩
    show some (gcj02_wgs84.wgs84_to_gcj02 T ⟨.fin x, .fin y⟩) = _
    rw [wgs84_to_gcj02_ok_of_inside T ⟨.fin x, .fin y⟩ hb]

/-- C2 witness: instantiated at `(0, 0)` (outside the box) and `(100, 30)`
(inside the box), with the arbitrary transcendental instantiation `T0`. -/
theorem transform_out_of_china_gating_witness :
    (transform T0 5 ⟨.fin 0, .fin 0⟩ .WGS84 .GCJ02 = some (.error .OutOfChina) ∧
     transform T0 5 ⟨.fin 0, .fin 0⟩ .GCJ02 .WGS84 = some (.error .OutOfChina) ∧
     transform T0 5 ⟨.fin 0, .fin 0⟩ .WGS84 .BD09 = some (.error .OutOfChina)) ∧
    (∃ q, transform T0 5 ⟨.fin 100, .fin 30⟩ .WGS84 .GCJ02 = some (.ok q)) :=
  ⟨(transform_out_of_china_gating T0 5 0 0).1 (Or.inl (by norm_num)),
   (transform_out_of_china_gating T0 5 100 30).2 (by norm_num)⟩

/-- C3: `transform(p, WGS84, BD09)` is exactly the composition of
`transform(p, WGS84, GCJ02)` with `transform(·, GCJ02, BD09)`, the first
leg's error propagated unchanged and the second leg not invoked on
failure. -/
theorem transform_wgs84_bd09_composition (T : TrigOps) (fuel : ℕ) (p : Coordinate) :
    transform T fuel p .WGS84 .BD09 =
      (transform T fuel p .WGS84 .GCJ02).bind (fun r =>
        match r with
        | .ok q => transform T fuel q .GCJ02 .BD09
        | .error e => some (.error e)) := by
  cases h : gcj02_wgs84.wgs84_to_gcj02 T p <;> simp [transform, h]

/-- C4: the GCJ02↔BD09 conversions are total and always return `Ok`,
whatever the coordinate. -/
theorem transform_gcj02_bd09_total (T : TrigOps) (fuel : ℕ) (p : Coordinate) :
    transform T fuel p .GCJ02 .BD09 = some (.ok (gcj02_bd09.gcj02_to_bd09 T p)) ∧
    transform T fuel p .BD09 .GCJ02 = some (.ok (gcj02_bd09.bd09_to_gcj02 T p)) :=
  ⟨rfl, rfl⟩

/-- C5: no conversion ever returns `Err(UnsupportedConversion)`. -/
theorem transform_never_unsupported (T : TrigOps) (fuel : ℕ) (p : Coordinate)
    (src tgt : CoordSystem) :
    transform T fuel p src tgt ≠ some (.error .UnsupportedConversion) := by
  cases src <;> cases tgt <;> intro h <;> simp only [transform] at h
  case WGS84.WGS84 => simp at h
  case GCJ02.GCJ02 => simp at h
  case BD09.BD09 => simp at h
  case GCJ02.BD09 => simp at h
  case BD09.GCJ02 => simp at h
  case WGS84.GCJ02 =>
    exact wgs84_to_gcj02_not_unsupported T p (Option.some.inj h)
  case GCJ02.WGS84 =>
    exact gcj02_to_wgs84_not_unsupported T fuel p h
  case BD09.WGS84 =>
    exact gcj02_to_wgs84_not_unsupported T fuel _ h
  case WGS84.BD09 =>
    cases he : gcj02_wgs84.wgs84_to_gcj02 T p with
    | ok q => rw [he] at h; simp at h
    | error e =>
      rw [he] at h
      obtain rfl : e = .UnsupportedConversion := by simpa using h
      exact wgs84_to_gcj02_not_unsupported T p he

/-- C5 witness: the no-`UnsupportedConversion` theorem instantiated at a
concrete coordinate and tag pair. -/
theorem transform_never_unsupported_witness :
    transform T0 5 ⟨.fin 100, .fin 30⟩ .WGS84 .GCJ02 ≠
      some (.error .UnsupportedConversion) :=
  transform_never_unsupported T0 5 ⟨.fin 100, .fin 30⟩ .WGS84 .GCJ02

/-- GCJ02→BD09 as the spec §4.2 writes it: `z = sqrt(lng²+lat²) +
0.00002·sin(lat·K)`, `θ = atan2(lat, lng) + 0.000003·cos(lng·K)` with
`K = π·3000/180`, output `(z·cos θ + 0.0065, z·sin θ + 0.006)`. -/
def gcj02_to_bd09_specFormula (T : TrigOps) (c : Coordinate) : Coordinate :=
  let K := T.pi * 3000.0 / 180.0
  let z := T.sqrt (c.lng * c.lng + c.lat * c.lat) + 0.00002 * T.sin (c.lat * K)
  let theta := T.atan2 c.lat c.lng + 0.000003 * T.cos (c.lng * K)
  Coordinate.new (z * T.cos theta + 0.0065) (z * T.sin theta + 0.006)

/-- BD09→GCJ02 as the spec §4.2 writes it: subtract the additive offsets
first (`x = lng−0.0065`, `y = lat−0.006`), then `z = sqrt(x²+y²) −
0.00002·sin(y·K)`, `θ = atan2(y,x) − 0.000003·cos(x·K)`, output
`(z·cos θ, z·sin θ)`. -/
def bd09_to_gcj02_specFormula (T : TrigOps) (c : Coordinate) : Coordinate :=
  let K := T.pi * 3000.0 / 180.0
  let x := c.lng - 0.0065
  let y := c.lat - 0.006
  let z := T.sqrt (x * x + y * y) - 0.00002 * T.sin (y * K)
  let theta := T.atan2 y x - 0.000003 * T.cos (x * K)
  Coordinate.new (z * T.cos theta) (z * T.sin theta)

/-- C6: the two GCJ02↔BD09 conversions compute exactly the closed-form
polar-offset formulas stated in the spec, operation for operation (the
source's `powi(2)` is squaring by multiplication, `BAIDU_FACTOR` is the
spec's `K`). -/
theorem gcj02_bd09_matches_spec_formulas (T : TrigOps) (c : Coordinate) :
    gcj02_bd09.gcj02_to_bd09 T c = gcj02_to_bd09_specFormula T c ∧
    gcj02_bd09.bd09_to_gcj02 T c = bd09_to_gcj02_specFormula T c :=
  ⟨rfl, rfl⟩

/-- C7: whenever `transform(p, GCJ02, WGS84)` returns `Ok(w)`, the forward
transform applied to `w` succeeds and lands within `1e-6` (strictly, in the
source's own `<` on absolute differences) of `p` in both components: the
loop's stopping condition holds of the returned candidate. -/
theorem gcj02_to_wgs84_residual_small (T : TrigOps) (fuel : ℕ) (p w : Coordinate)
    (h : transform T fuel p .GCJ02 .WGS84 = some (.ok w)) :
    ∃ q, gcj02_wgs84.wgs84_to_gcj02 T w = .ok q ∧
      Fl.blt (Fl.abs (q.lng - p.lng)) 1e-6 = true ∧
      Fl.blt (Fl.abs (q.lat - p.lat)) 1e-6 = true := by
  simp only [transform, gcj02_wgs84.gcj02_to_wgs84] at h
  split at h
  · simp_all
  · exact gcj02_loop_ok_residual T p.lng p.lat fuel p.lng p.lat w h

/-- C7 witness: with the instantiation `T0` the perturbation is zero, so on
`(100, 30)` the loop stops at once on the input itself, and the residual
bound holds there. -/
theorem gcj02_to_wgs84_residual_small_witness :
    transform T0 1 ⟨.fin 100, .fin 30⟩ .GCJ02 .WGS84 =
      some (.ok ⟨.fin 100, .fin 30⟩) ∧
    ∃ q, gcj02_wgs84.wgs84_to_gcj02 T0 ⟨.fin 100, .fin 30⟩ = .ok q ∧
      Fl.blt (Fl.abs (q.lng - Fl.fin 100)) 1e-6 = true ∧
      Fl.blt (Fl.abs (q.lat - Fl.fin 30)) 1e-6 = true := by
  have h : transform T0 1 ⟨.fin 100, .fin 30⟩ .GCJ02 .WGS84 =
      some (.ok ⟨.fin 100, .fin 30⟩) := by
    norm_num [transform, gcj02_wgs84.gcj02_to_wgs84, gcj02_wgs84.gcj02_loop,
      gcj02_wgs84.wgs84_to_gcj02, gcj02_wgs84.is_in_china_bbox, gcj02_wgs84.delta,
      gcj02_wgs84.transform_lat, gcj02_wgs84.transform_lon, gcj02_wgs84.A,
      gcj02_wgs84.EE, T0, Coordinate.new]
  exact ⟨h, gcj02_to_wgs84_residual_small T0 1 _ _ h⟩

/-- C10: a coordinate with a NaN component fails the bounding-box gate
(every comparison against NaN is false), so the WGS84→GCJ02, GCJ02→WGS84
and WGS84→BD09 paths all return `OutOfChina` and never propagate the NaN
into a result. -/
theorem transform_nan_out_of_china (T : TrigOps) (fuel : ℕ) (p : Coordinate)
    (h : p.lng = .nan ∨ p.lat = .nan) :
    transform T fuel p .WGS84 .GCJ02 = some (.error .OutOfChina) ∧
    transform T fuel p .GCJ02 .WGS84 = some (.error .OutOfChina) ∧
    transform T fuel p .WGS84 .BD09 = some (.error .OutOfChina) := by
  have hb : gcj02_wgs84.is_in_china_bbox p.lng p.lat = false := by
    rcases h with h | h <;> rw [h] <;> simp [gcj02_wgs84.is_in_china_bbox]
  refine ⟨?_, ?_, ?_⟩ <;>
    simp [transform, gcj02_wgs84.wgs84_to_gcj02, gcj02_wgs84.gcj02_to_wgs84, hb]

/-- C10 witness: instantiated at a coordinate with NaN longitude. -/
theorem transform_nan_out_of_china_witness :
    transform T0 5 ⟨.nan, .fin 30⟩ .WGS84 .GCJ02 = some (.error .OutOfChina) ∧
    transform T0 5 ⟨.nan, .fin 30⟩ .GCJ02 .WGS84 = some (.error .OutOfChina) ∧
    transform T0 5 ⟨.nan, .fin 30⟩ .WGS84 .BD09 = some (.error .OutOfChina) :=
  transform_nan_out_of_china T0 5 ⟨.nan, .fin 30⟩ (Or.inl rfl)
